import Mathlib

/-!
Shallow embedding of the asynchronous job-lifecycle core of the billing
frontend: the job poller hook (src/frontend/src/hooks/useJobPoller.js), the
batch submission controller (BatchProcessor component), the selection set and
filter handling of the App component, and the transport error mapping of the
API client.  Stateful React code is modelled by explicit state records and a
small-step event semantics; the single-threaded cooperative scheduling of the
browser is modelled by an arbitrary interleaving of events (timer expiries,
fetch resolutions) acting on the state.
-/

namespace Billing

/-! ## Job data model (spec section 3; shape of GET /jobs/{id} responses) -/

/-- The four job statuses carried by poll responses. -/
inductive JobStatus
  | queued
  | processing
  | completed
  | failed
deriving DecidableEq, Repr

/-- A job as tracked by the frontend: opaque id, status, optional error
message.  Mirrors the object returned by the jobs endpoint. -/
structure Job where
  id : String
  status : JobStatus
  error_message : Option String
deriving DecidableEq, Repr

/-- `TERMINAL_STATES` from useJobPoller.js line 5: the statuses that stop
polling. -/
def TERMINAL_STATES : List JobStatus := [.completed, .failed]

/-- `POLL_INTERVAL_MS` from useJobPoller.js line 4. -/
def POLL_INTERVAL_MS : Nat := 2000

/-- JavaScript `a || b` applied to an optional string: an absent or empty
string is falsy and yields the fallback. -/
def jsOrElse (a : Option String) (b : String) : String :=
  match a with
  | some s => if s = "" then b else s
  | none => b

/-! ## Transport error mapping (api client, part_003 lines 107-122)

`request` performs `fetch`; on a non-2xx response it reads the JSON body
(falling back to `{detail: res.statusText}` when the body fails to parse)
and throws `new Error(err.detail || "Request failed")`.  We model the
message computation.  `body = none` models a body that failed to parse;
`body = some d` models a parsed JSON object whose optional `detail` field
is `d`. -/

/-- The error message thrown by `request` for a non-2xx response with status
text `statusText` and body `body`. -/
def requestErrMsg (statusText : String) (body : Option (Option String)) : String :=
  let detail : Option String :=
    match body with
    | none => some statusText
    | some d => d
  jsOrElse detail "Request failed"

/-! ## Selection set and filters (App component, part_000) -/

/-- The filter record held by the App component (part_000 lines 8-15). -/
structure FiltersState where
  invoice_type : String
  status : String
  min_amount : String
  max_amount : String
  start_date : String
  end_date : String
deriving DecidableEq, Repr

/-- `INITIAL_FILTERS` (part_000 lines 8-15). -/
def INITIAL_FILTERS : FiltersState :=
  { invoice_type := "", status := "", min_amount := "", max_amount := ""
  , start_date := "", end_date := "" }

/-- The keys of the filter record, as edited by the Filters component. -/
inductive FilterKey
  | invoice_type
  | status
  | min_amount
  | max_amount
  | start_date
  | end_date
deriving DecidableEq, Repr

/-- The `set(key)` handler of the Filters component (Filters.jsx line 57):
`onChange({...filters, [key]: value})` builds the new filter record from the
current one with one field replaced. -/
def setFilterField (f : FiltersState) (k : FilterKey) (v : String) : FiltersState :=
  match k with
  | .invoice_type => { f with invoice_type := v }
  | .status => { f with status := v }
  | .min_amount => { f with min_amount := v }
  | .max_amount => { f with max_amount := v }
  | .start_date => { f with start_date := v }
  | .end_date => { f with end_date := v }

/-- The slice of App component state the selection and filter claims are
about (part_000 lines 20-24). -/
structure AppState where
  skip : Nat
  filters : FiltersState
  selectedIds : Finset String
deriving DecidableEq

/-- `handleFilterChange` (part_000 lines 56-60): reset to the first page,
install the new filters, and clear the selection — one synchronous handler,
hence one atomic observable state transition. -/
def handleFilterChange (s : AppState) (newFilters : FiltersState) : AppState :=
  { s with skip := 0, filters := newFilters, selectedIds := ∅ }

/-- `handleToggleSelect` (part_000 lines 62-68): copy the previous set and
delete `id` if present, insert it otherwise. -/
def handleToggleSelect (prev : Finset String) (id : String) : Finset String :=
  if id ∈ prev then prev.erase id else insert id prev

/-- `handleBatchComplete` (part_000 lines 70-73): the completion callback the
App passes to the BatchProcessor; it clears the selection (the table refresh
is a transport call, outside the state slice modelled here). -/
def handleBatchComplete (s : AppState) : AppState :=
  { s with selectedIds := ∅ }

/-! ## The job poller (useJobPoller.js)

The hook holds React state `job`, `isPolling`, `error` and a ref
`intervalRef`.  The effect keyed on `jobId` starts a session: it resets the
observable state, runs `poll()` immediately, and arms `setInterval(poll,
POLL_INTERVAL_MS)`; its cleanup is `stop`, which clears the interval and
lowers `isPolling`.  Each invocation of `poll` starts a fetch which later
resolves (success or failure); the continuation after the `await` writes
`setJob(data)` unconditionally and calls `stop()` on a terminal status, or
`setError`/`stop()` on a transport failure.

The embedding makes the scheduling explicit: an `issued` log records every
fetch ever started (instrumentation used to state "no further fetch is
issued" properties), `pending` holds the in-flight fetches, and events
(session start, cleanup, timer expiry, fetch resolution) are interleaved by
the environment.  Sessions are numbered so a fetch or interval can be traced
to the effect run (the closure) that created it; in the JavaScript the same
role is played by the closure identity capturing `jobId`.  The ref and the
armed interval always coincide in the source (the ref is written exactly
when an interval is armed and cleared exactly when it is cancelled), so the
model keeps a single `intervalRef` field. -/

/-- An armed `setInterval` handle: the session (effect run) whose `poll`
closure it fires, the captured job id, and the period passed to
`setInterval`. -/
structure IntervalTimer where
  session : Nat
  jobId : String
  periodMs : Nat
deriving DecidableEq, Repr

/-- An in-flight `api.getJob` fetch: a unique id, the session whose `poll`
closure issued it, and the job id captured by that closure. -/
structure FetchReq where
  fid : Nat
  session : Nat
  jobId : String
deriving DecidableEq, Repr

/-- The poller state: the hook's React state (`job`, `isPolling`, `error`),
the interval ref, plus the scheduling context (session counter, fresh fetch
ids, in-flight fetches, and the log of all fetches ever issued). -/
structure PollerState where
  job : Option Job
  isPolling : Bool
  error : Option String
  intervalRef : Option IntervalTimer
  session : Nat
  nextFid : Nat
  pending : List FetchReq
  issued : List FetchReq
deriving DecidableEq, Repr

/-- The state of a freshly mounted hook (useJobPoller.js lines 14-17). -/
def pollerInitState : PollerState :=
  { job := none, isPolling := false, error := none, intervalRef := none
  , session := 0, nextFid := 0, pending := [], issued := [] }

/-- `stop` (useJobPoller.js lines 19-25): clear the interval, null the ref,
lower `isPolling`. -/
def stop (s : PollerState) : PollerState :=
  { s with intervalRef := none, isPolling := false }

/-- The synchronous prefix of one `poll()` invocation: `api.getJob(jobId)`
starts a fetch (recorded as pending and logged as issued) and suspends. -/
def issueFetch (jid : String) (sess : Nat) (s : PollerState) : PollerState :=
  let f : FetchReq := { fid := s.nextFid, session := sess, jobId := jid }
  { s with nextFid := s.nextFid + 1, pending := f :: s.pending
         , issued := f :: s.issued }

/-- One effect run for a non-null `jobId` (useJobPoller.js lines 27-49),
preceded by the cleanup of the previous effect (React runs the registered
cleanup, `stop`, before re-running the effect): reset `isPolling`, `error`,
`job`; run `poll()` immediately (no initial delay); arm
`setInterval(poll, POLL_INTERVAL_MS)`. -/
def startSession (jid : String) (s : PollerState) : PollerState :=
  let s0 := stop s
  let ns := s0.session + 1
  let s1 := { s0 with isPolling := true, error := none, job := none
                    , session := ns }
  let s2 := issueFetch jid ns s1
  { s2 with intervalRef := some { session := ns, jobId := jid
                                , periodMs := POLL_INTERVAL_MS } }

/-- One expiry of the armed interval: `setInterval` invokes the `poll`
closure of the session that armed it, issuing a new fetch — whether or not a
previous fetch of the session is still in flight.  The interval stays
armed. -/
def tick (s : PollerState) : PollerState :=
  match s.intervalRef with
  | none => s
  | some t => issueFetch t.jobId t.session s

/-- Look up an in-flight fetch by id. -/
def findPending (fid : Nat) (s : PollerState) : Option FetchReq :=
  s.pending.find? (fun f => f.fid = fid)

/-- Resolution of fetch `fid` with a successful response `data`
(useJobPoller.js lines 36-38): the continuation runs `setJob(data)`
unconditionally, then `stop()` when `data.status` is terminal. -/
def resolveOkF (fid : Nat) (data : Job) (s : PollerState) : PollerState :=
  match findPending fid s with
  | none => s
  | some _ =>
    let s1 := { s with pending := s.pending.filter (fun g => g.fid ≠ fid)
                     , job := some data }
    if data.status ∈ TERMINAL_STATES then stop s1 else s1

/-- Resolution of fetch `fid` with a transport failure carrying message
`msg` (useJobPoller.js lines 39-42): the catch block runs
`setError(err.message)` and `stop()`; it does not touch `job` and issues no
new fetch. -/
def resolveErrF (fid : Nat) (msg : String) (s : PollerState) : PollerState :=
  match findPending fid s with
  | none => s
  | some _ =>
    stop { s with pending := s.pending.filter (fun g => g.fid ≠ fid)
                , error := some msg }

/-- The events the environment can deliver to the poller: a session start
for a new job id (effect re-run), the cleanup alone (job id set to null, or
unmount), an interval expiry, and the resolution of an in-flight fetch. -/
inductive PEvent
  | start (jid : String)
  | cleanup
  | tick
  | resolveOk (fid : Nat) (data : Job)
  | resolveErr (fid : Nat) (msg : String)
deriving DecidableEq, Repr

/-- One step of the poller semantics. -/
def pstep (e : PEvent) (s : PollerState) : PollerState :=
  match e with
  | .start jid => startSession jid s
  | .cleanup => stop s
  | .tick => tick s
  | .resolveOk fid data => resolveOkF fid data s
  | .resolveErr fid msg => resolveErrF fid msg s

/-- Run a list of events, oldest first. -/
def runPoller (evs : List PEvent) (s : PollerState) : PollerState :=
  evs.foldl (fun s e => pstep e s) s

/-- How many fetches session `σ` has issued so far. -/
def issuedFor (σ : Nat) (s : PollerState) : Nat :=
  (s.issued.filter (fun f => f.session = σ)).length

/-! ## The batch submission controller (BatchProcessor, part_003)

The component holds `jobId`, `submitting`, `submitError`; it composes one
`useJobPoller(jobId)` and renders from the derived values `isCompleted` and
`isFailed`.  `handleProcess` performs the one-shot creation call. -/

/-- The BatchProcessor component state (part_003 lines 16-18). -/
structure BPState where
  jobId : Option String
  submitting : Bool
  submitError : Option String
deriving DecidableEq, Repr

/-- `handleProcess` (part_003 lines 22-36) with the creation call's outcome
supplied by the environment (`.ok jid` is a 2xx response carrying `job_id`;
`.error m` is the thrown message).  The returned Bool records whether a
creation request was issued.  On an empty selection the handler returns
before any state write or request.  Otherwise: `setSubmitting(true)`,
`setSubmitError(null)`, `setJobId(null)`, then `await api.processBatch`;
on success `setJobId(res.job_id)`, on failure `setSubmitError(err.message)`;
finally `setSubmitting(false)`. -/
def handleProcess (selectedIds : Finset String)
    (apiResult : Except String String) (s : BPState) : BPState × Bool :=
  if selectedIds.card = 0 then (s, false)
  else
    let s1 : BPState :=
      { s with submitting := true, submitError := none, jobId := none }
    match apiResult with
    | .ok jid => ({ s1 with jobId := some jid, submitting := false }, true)
    | .error m => ({ s1 with submitError := some m, submitting := false }, true)

/-- The `disabled` predicate of the process button (part_003 line 52):
`selectedIds.size === 0 || submitting || isPolling`. -/
def processButtonDisabled (selectedIds : Finset String)
    (submitting isPolling : Bool) : Bool :=
  decide (selectedIds.card = 0) || submitting || isPolling

/-- A user click on the process button: a disabled button fires no
`onClick`, so the click is a no-op; otherwise `handleProcess` runs. -/
def clickProcess (selectedIds : Finset String) (isPolling : Bool)
    (apiResult : Except String String) (s : BPState) : BPState × Bool :=
  if processButtonDisabled selectedIds s.submitting isPolling then (s, false)
  else handleProcess selectedIds apiResult s

/-! ### Render-derived values and the completion side effect
(part_003 lines 39-45 and 69-98) -/

/-- `isCompleted` (part_003 line 39): `job?.status === "completed"`. -/
def isCompletedRender (job : Option Job) : Bool :=
  job.map Job.status = some JobStatus.completed

/-- `isFailed` (part_003 line 40): `job?.status === "failed"`. -/
def isFailedRender (job : Option Job) : Bool :=
  job.map Job.status = some JobStatus.failed

/-- The completion side effect as the source fires it (part_003 lines
42-45): every evaluation of the component body with `isCompleted` true (and
an `onComplete` prop present) schedules one deferred `onComplete` call via
`setTimeout(onComplete, 0)`. -/
def completionCallsOnRender (job : Option Job) : Nat :=
  if isCompletedRender job then 1 else 0

/-- Total `onComplete` calls scheduled across a sequence of renders, each
observing the poller's `job` value at that time. -/
def totalCompletionCalls (renders : List (Option Job)) : Nat :=
  (renders.map completionCallsOnRender).sum

/-- The job-failure message rendered in the status panel (part_003 lines
78-80): shown only when `isFailed`, with text
`job?.error_message || "Job failed"`. -/
def renderedJobFailureMsg (job : Option Job) : Option String :=
  if isFailedRender job then some (jsOrElse (job.bind Job.error_message) "Job failed")
  else none

/-- The polling (transport) error line (part_003 lines 96-98): a separate
element, shown only when `pollError` is set, prefixed "Polling error: ". -/
def renderedPollErrorMsg (pollError : Option String) : Option String :=
  pollError.map (fun m => "Polling error: " ++ m)

/-! ### Concrete values used to exercise the model -/

/-- A non-terminal job tracked for id "j1". -/
def jobJ1proc : Job := { id := "j1", status := .processing, error_message := none }

/-- A non-terminal job tracked for id "j2". -/
def jobJ2proc : Job := { id := "j2", status := .processing, error_message := none }

/-- A terminal-success job for id "j1". -/
def jobCompletedJ1 : Job := { id := "j1", status := .completed, error_message := none }

/-- A terminal-failure job for id "j1" carrying an error message. -/
def jobFailedJ1 : Job := { id := "j1", status := .failed, error_message := some "boom" }

/-- A poller that started tracking "j1" and has observed one non-terminal
poll response. -/
def pollerTrackingJ1 : PollerState :=
  runPoller [.start "j1", .resolveOk 0 jobJ1proc] pollerInitState

/-- A poller whose session on "j1" observed `processing` and then hit a
transport failure on the next poll: the error stops the session
(`isPolling` lowered) while the tracked job value is still the non-terminal
`processing` one. -/
def pollerErroredJ1 : PollerState :=
  runPoller [.start "j1", .resolveOk 0 jobJ1proc, .tick,
             .resolveErr 1 "Failed to fetch"] pollerInitState

/-! ### Session-local liveness bookkeeping

Fetches are issued in exactly two places: the immediate `poll()` of a
session start, and interval expiries.  Once no armed interval belongs to
session `σ` (and the session counter has passed `σ`, so no future effect
run reuses the number), no event can ever issue another fetch for `σ`. -/

/-- Session `σ` can no longer issue fetches: the session counter has reached
`σ` and the armed interval, if any, is not `σ`'s. -/
def SessionGuard (σ : Nat) (s : PollerState) : Prop :=
  σ ≤ s.session ∧ ∀ t, s.intervalRef = some t → t.session ≠ σ

lemma startSession_issued (jid : String) (s : PollerState) :
    (startSession jid s).issued =
      { fid := s.nextFid, session := s.session + 1, jobId := jid } :: s.issued :=
  rfl

lemma startSession_session (jid : String) (s : PollerState) :
    (startSession jid s).session = s.session + 1 := rfl

lemma startSession_pending (jid : String) (s : PollerState) :
    (startSession jid s).pending =
      { fid := s.nextFid, session := s.session + 1, jobId := jid } :: s.pending :=
  rfl

lemma startSession_job (jid : String) (s : PollerState) :
    (startSession jid s).job = none := rfl

lemma startSession_intervalRef (jid : String) (s : PollerState) :
    (startSession jid s).intervalRef =
      some { session := s.session + 1, jobId := jid, periodMs := POLL_INTERVAL_MS } :=
  rfl

lemma issuedFor_cons_ne (σ : Nat) (f : FetchReq) (l : List FetchReq)
    (h : f.session ≠ σ) :
    ((f :: l).filter (fun g => g.session = σ)).length =
      (l.filter (fun g => g.session = σ)).length := by
  simp [List.filter_cons, h]

/-- One step preserves the guard and issues no fetch for a guarded
session. -/
lemma sessionGuard_pstep (σ : Nat) (e : PEvent) (s : PollerState)
    (h : SessionGuard σ s) :
    SessionGuard σ (pstep e s) ∧ issuedFor σ (pstep e s) = issuedFor σ s := by
  obtain ⟨h1, h2⟩ := h
  cases e with
  | start jid =>
    refine ⟨⟨?_, ?_⟩, ?_⟩
    · rw [pstep, startSession_session]; omega
    · intro t ht
      rw [pstep, startSession_intervalRef] at ht
      injection ht with ht
      subst ht
      simp only
      omega
    · show issuedFor σ (startSession jid s) = issuedFor σ s
      unfold issuedFor
      rw [startSession_issued]
      exact issuedFor_cons_ne σ _ _ (by simp only; omega)
  | cleanup =>
    exact ⟨⟨h1, by intro t ht; simp [pstep, stop] at ht⟩, rfl⟩
  | tick =>
    rw [pstep, tick]
    cases href : s.intervalRef with
    | none => exact ⟨⟨h1, fun t ht => by rw [href] at ht; exact absurd ht (by simp)⟩, rfl⟩
    | some t =>
      refine ⟨⟨h1, ?_⟩, ?_⟩
      · intro u hu
        simp only [issueFetch] at hu
        rw [href] at hu
        injection hu with hu
        subst hu
        exact h2 t href
      · unfold issuedFor
        simp only [issueFetch]
        exact issuedFor_cons_ne σ _ _ (h2 t href)
  | resolveOk fid data =>
    rw [pstep, resolveOkF]
    cases hfind : findPending fid s with
    | none => exact ⟨⟨h1, h2⟩, rfl⟩
    | some f =>
      by_cases hterm : data.status ∈ TERMINAL_STATES
      · simp only [hterm, if_pos]
        exact ⟨⟨h1, by intro t ht; simp [stop] at ht⟩, rfl⟩
      · simp only [hterm, if_neg, not_false_iff]
        exact ⟨⟨h1, h2⟩, rfl⟩
  | resolveErr fid msg =>
    rw [pstep, resolveErrF]
    cases hfind : findPending fid s with
    | none => exact ⟨⟨h1, h2⟩, rfl⟩
    | some f =>
      exact ⟨⟨h1, by intro t ht; simp [stop] at ht⟩, rfl⟩

lemma runPoller_cons (e : PEvent) (evs : List PEvent) (s : PollerState) :
    runPoller (e :: evs) s = runPoller evs (pstep e s) := rfl

/-- Any sequence of events issues no fetch for a guarded session, and the
guard persists. -/
lemma sessionGuard_run (σ : Nat) (evs : List PEvent) (s : PollerState)
    (h : SessionGuard σ s) :
    SessionGuard σ (runPoller evs s) ∧
      issuedFor σ (runPoller evs s) = issuedFor σ s := by
  induction evs generalizing s with
  | nil => exact ⟨h, rfl⟩
  | cons e evs ih =>
    obtain ⟨hg, he⟩ := sessionGuard_pstep σ e s h
    obtain ⟨hg2, he2⟩ := ih (pstep e s) hg
    rw [runPoller_cons]
    exact ⟨hg2, he2.trans he⟩

/-! ## Claim theorems -/

/-- Claim C8: invoking submit with an empty selection is a no-op — the
handler returns before any state write, no creation request is issued and
the controller state is unchanged. -/
theorem submit_empty_selection_noop (r : Except String String) (s : BPState) :
    handleProcess ∅ r s = (s, false) := by
  simp [handleProcess]

/-- Claim C9: every change to the active filter criteria goes through
`handleFilterChange`, one synchronous state transition that installs the new
filters and clears the selection set to empty (and resets paging), so the
clearing is an atomic observable effect of the filter change; this covers in
particular every edit produced by the Filters component's field handlers. -/
theorem filter_change_clears_selection (app : AppState) (nf : FiltersState)
    (k : FilterKey) (v : String) :
    (handleFilterChange app nf).selectedIds = ∅ ∧
      (handleFilterChange app nf).filters = nf ∧
      (handleFilterChange app nf).skip = 0 ∧
      (handleFilterChange app (setFilterField app.filters k v)).selectedIds = ∅ :=
  ⟨rfl, rfl, rfl, rfl⟩

/-- Claim C10: `toggle(d)` flips exactly the membership of `d` — it removes
`d` when present and inserts it when absent, leaves every other element's
membership unchanged, and applying it twice returns the original set. -/
theorem toggle_select_involutive (S : Finset String) (d e : String) :
    handleToggleSelect (handleToggleSelect S d) d = S ∧
      (e ∈ handleToggleSelect S d ↔ if e = d then d ∉ S else e ∈ S) := by
  constructor
  · by_cases hd : d ∈ S
    · simp [handleToggleSelect, hd, Finset.insert_erase hd]
    · simp [handleToggleSelect, hd, Finset.erase_insert hd]
  · by_cases he : e = d
    · subst he
      by_cases hd : e ∈ S <;> simp [handleToggleSelect, hd]
    · by_cases hd : d ∈ S <;>
        simp [handleToggleSelect, hd, he, Finset.mem_erase, Finset.mem_insert]

/-- Claim C1, evaluated at the failing input: the completion side effect is
fired during evaluation of the component body, level-sensitively — every
render that observes the same immutable `completed` job schedules one more
deferred `onComplete` call, so observing the terminal value twice yields two
invocations instead of the required exactly-once. -/
theorem completion_fires_once_per_render :
    totalCompletionCalls [some jobCompletedJ1, some jobCompletedJ1] = 2 ∧
      totalCompletionCalls [some jobCompletedJ1] = 1 := by
  constructor <;> rfl

/-- Claim C2, evaluated at the failing input (Scenario D): the poll
continuation writes `setJob(data)` with no session/jobId identity check, so
after switching from "j1" to "j2" and observing "j2"'s response, the late
resolution of "j1"'s in-flight fetch overwrites the tracked state with
"j1"'s job. -/
theorem stale_response_overwrites_state :
    (runPoller [.start "j1", .start "j2", .resolveOk 1 jobJ2proc,
                .resolveOk 0 jobJ1proc] pollerInitState).job = some jobJ1proc ∧
      jobJ1proc ≠ jobJ2proc := by
  constructor
  · rfl
  · decide

/-- Claim C3 counterexample: polls of one session are not strictly
sequential — after `start`, one interval expiry while the first fetch is
still in flight leaves two overlapping in-flight fetches of the same
session, so a new fetch can start before the previous one has resolved. -/
theorem overlapping_polls_same_session :
    (runPoller [.start "j1", .tick] pollerInitState).pending =
      [{ fid := 1, session := 1, jobId := "j1" },
       { fid := 0, session := 1, jobId := "j1" }] := rfl

/-- Claim C3 amended: the first fetch on session start is issued
immediately (no initial delay), and a single repeating interval with fixed
period `POLL_INTERVAL_MS = 2000` is armed; each expiry of the armed interval
issues a new fetch for its session regardless of whether the previous fetch
has resolved, so the 2000 ms spacing is between timer expiries, not from the
end of one resolved fetch to the start of the next. -/
theorem poll_schedule_fixed_interval (s s2 : PollerState) (jid : String)
    (t : IntervalTimer) (ht : s2.intervalRef = some t) :
    ((startSession jid s).pending.head? =
        some { fid := s.nextFid, session := s.session + 1, jobId := jid }) ∧
      (startSession jid s).intervalRef =
        some { session := s.session + 1, jobId := jid
             , periodMs := POLL_INTERVAL_MS } ∧
      POLL_INTERVAL_MS = 2000 ∧
      tick s2 = issueFetch t.jobId t.session s2 := by
  refine ⟨rfl, rfl, rfl, ?_⟩
  rw [tick, ht]

/-- Witness for the amended C3 theorem at a concrete session. -/
theorem poll_schedule_fixed_interval_witness :
    ((startSession "j1" pollerInitState).pending.head? =
        some { fid := 0, session := 1, jobId := "j1" }) ∧
      (startSession "j1" pollerInitState).intervalRef =
        some { session := 1, jobId := "j1", periodMs := POLL_INTERVAL_MS } ∧
      POLL_INTERVAL_MS = 2000 ∧
      tick (startSession "j1" pollerInitState) =
        issueFetch "j1" 1 (startSession "j1" pollerInitState) :=
  poll_schedule_fixed_interval pollerInitState (startSession "j1" pollerInitState)
    "j1" { session := 1, jobId := "j1", periodMs := 2000 } rfl

/-- Claim C4 counterexample: refusal is keyed on `isPolling`, not on the
tracked job being non-terminal.  In the reachable state where a session on
"j1" observed `processing` and the next poll hit a transport error, the
tracked job value is still non-terminal but `isPolling` is false, and a
click with a non-empty selection is not refused: the controller state
changes and a second creation request is issued. -/
theorem submit_not_refused_after_poll_error :
    pollerErroredJ1.job = some jobJ1proc ∧
      jobJ1proc.status ∉ TERMINAL_STATES ∧
      pollerErroredJ1.isPolling = false ∧
      clickProcess {"d1"} pollerErroredJ1.isPolling (.ok "j9")
          { jobId := none, submitting := false, submitError := none } =
        ({ jobId := some "j9", submitting := false, submitError := none }, true) := by
  refine ⟨rfl, by decide, rfl, ?_⟩
  rfl

/-- Claim C4 amended: invoking submit is refused as a no-op — controller
state unchanged, no creation request issued — whenever the poller session
is active (`isPolling` true, the process button's disabled condition);
`isPolling` holds while a previously submitted job is tracked non-terminal
and the session has neither errored nor been stopped, but after a polling
transport error the session is abandoned fail-stop and a new submission is
permitted even though the last tracked job value may still be
non-terminal. -/
theorem submit_refused_while_polling (ps : PollerState)
    (sel : Finset String) (r : Except String String) (bs : BPState)
    (hpoll : ps.isPolling = true) :
    clickProcess sel ps.isPolling r bs = (bs, false) := by
  rw [hpoll]
  simp [clickProcess, processButtonDisabled]

/-- Witness for the amended C4 theorem at a concrete poller state reached
by a real run: an active session on "j1" tracking a `processing` job. -/
theorem submit_refused_while_polling_witness :
    clickProcess {"d1"} pollerTrackingJ1.isPolling (.ok "j9")
        { jobId := some "j1", submitting := false, submitError := none } =
      ({ jobId := some "j1", submitting := false, submitError := none }, false) :=
  submit_refused_while_polling pollerTrackingJ1 {"d1"} (.ok "j9")
    { jobId := some "j1", submitting := false, submitError := none } rfl

/-- Claim C5: when a status fetch of a session resolves successfully with a
terminal status, the continuation cancels the interval (`intervalRef`
cleared, `isPolling` lowered) and no event sequence whatsoever can ever
issue another status fetch for that session. -/
theorem terminal_status_stops_session (s : PollerState) (fid : Nat)
    (f : FetchReq) (data : Job) (evs : List PEvent)
    (hf : findPending fid s = some f)
    (hterm : data.status ∈ TERMINAL_STATES)
    (hsess : f.session ≤ s.session) :
    (resolveOkF fid data s).intervalRef = none ∧
      (resolveOkF fid data s).isPolling = false ∧
      issuedFor f.session (runPoller evs (resolveOkF fid data s)) =
        issuedFor f.session (resolveOkF fid data s) := by
  have hres : resolveOkF fid data s =
      stop { s with pending := s.pending.filter (fun g => g.fid ≠ fid)
                  , job := some data } := by
    rw [resolveOkF, hf]
    simp [hterm]
  refine ⟨by rw [hres]; rfl, by rw [hres]; rfl, ?_⟩
  have hg : SessionGuard f.session (resolveOkF fid data s) := by
    rw [hres]
    exact ⟨hsess, by intro t ht; simp [stop] at ht⟩
  exact (sessionGuard_run _ evs _ hg).2

/-- Witness for C5: a session on "j1" whose first fetch resolves
`completed`; two further timer expiries issue nothing for it. -/
theorem terminal_status_stops_session_witness :
    (resolveOkF 0 jobCompletedJ1 (startSession "j1" pollerInitState)).intervalRef = none ∧
      (resolveOkF 0 jobCompletedJ1 (startSession "j1" pollerInitState)).isPolling = false ∧
      issuedFor 1 (runPoller [.tick, .tick]
          (resolveOkF 0 jobCompletedJ1 (startSession "j1" pollerInitState))) =
        issuedFor 1 (resolveOkF 0 jobCompletedJ1 (startSession "j1" pollerInitState)) :=
  terminal_status_stops_session (startSession "j1" pollerInitState) 0
    { fid := 0, session := 1, jobId := "j1" } jobCompletedJ1 [.tick, .tick]
    rfl (by decide) (by decide)

/-- Claim C6: a poll sequence ending in a `failed` job never invokes the
completion callback (no render of a non-`completed` job schedules one); the
failed job, with its `error_message`, is written to observable state by the
resolving poll, and the rendered failure text is that `error_message`,
displayed separately from the transport-error line. -/
theorem failed_job_no_completion (s : PollerState) (fid : Nat) (f : FetchReq)
    (data : Job) (msg : String) (renders : List (Option Job))
    (hfind : findPending fid s = some f)
    (hfail : data.status = .failed)
    (hmsg : data.error_message = some msg) (hne : msg ≠ "")
    (hrenders : ∀ j ∈ renders, Option.map Job.status j ≠ some JobStatus.completed) :
    (resolveOkF fid data s).job = some data ∧
      totalCompletionCalls renders = 0 ∧
      renderedJobFailureMsg (some data) = some msg ∧
      (∀ pe : String,
        renderedPollErrorMsg (some pe) = some ("Polling error: " ++ pe)) := by
  refine ⟨?_, ?_, ?_, fun pe => rfl⟩
  · rw [resolveOkF, hfind]
    have hterm : data.status ∈ TERMINAL_STATES := by rw [hfail]; decide
    simp [hterm, stop]
  · induction renders with
    | nil => rfl
    | cons a l ih =>
      have ha : completionCallsOnRender a = 0 := by
        have := hrenders a (List.mem_cons_self a l)
        simp [completionCallsOnRender, isCompletedRender, this]
      have hl := ih (fun j hj => hrenders j (List.mem_cons_of_mem a hj))
      simp [totalCompletionCalls, List.map_cons, List.sum_cons] at hl ⊢
      simp [totalCompletionCalls] at ha
      omega
  · simp [renderedJobFailureMsg, isFailedRender, hfail, jsOrElse, hmsg, hne]

/-- Witness for C6: a run observing `queued`, `processing`, then `failed`
with message "boom". -/
theorem failed_job_no_completion_witness :
    (resolveOkF 0 jobFailedJ1 (startSession "j1" pollerInitState)).job = some jobFailedJ1 ∧
      totalCompletionCalls [none, some jobJ1proc, some jobFailedJ1] = 0 ∧
      renderedJobFailureMsg (some jobFailedJ1) = some "boom" ∧
      (∀ pe : String,
        renderedPollErrorMsg (some pe) = some ("Polling error: " ++ pe)) :=
  failed_job_no_completion (startSession "j1" pollerInitState) 0
    { fid := 0, session := 1, jobId := "j1" } jobFailedJ1 "boom"
    [none, some jobJ1proc, some jobFailedJ1]
    rfl rfl rfl (by decide) (by decide)

/-- Claim C7: a non-2xx response surfaces its body's `detail` field as the
thrown message; a failing creation call is caught and converted to
`submitError` local state with no job bound (no polling starts); a failing
status fetch is caught and converted to the poller's `error` state, the
interval is cancelled, the exposed job value stays `null` (the error branch
never writes `job`), and no retry is ever issued for that session. -/
theorem transport_failure_handling (statusText d : String) (hd : d ≠ "")
    (sel : Finset String) (hsel : sel.card ≠ 0)
    (bm m jid : String) (bs : BPState) (s : PollerState) (evs : List PEvent) :
    requestErrMsg statusText (some (some d)) = d ∧
      handleProcess sel (.error bm) bs =
        ({ jobId := none, submitting := false, submitError := some bm }, true) ∧
      ((resolveErrF s.nextFid m (startSession jid s)).error = some m ∧
        (resolveErrF s.nextFid m (startSession jid s)).isPolling = false ∧
        (resolveErrF s.nextFid m (startSession jid s)).intervalRef = none ∧
        (resolveErrF s.nextFid m (startSession jid s)).job = none ∧
        issuedFor (s.session + 1)
            (runPoller evs (resolveErrF s.nextFid m (startSession jid s))) =
          issuedFor (s.session + 1) (resolveErrF s.nextFid m (startSession jid s))) := by
  have hfind : findPending s.nextFid (startSession jid s) =
      some { fid := s.nextFid, session := s.session + 1, jobId := jid } := by
    unfold findPending
    rw [startSession_pending]
    exact List.find?_cons_of_pos _ (by simp)
  have herr : resolveErrF s.nextFid m (startSession jid s) =
      stop { startSession jid s with
               pending := (startSession jid s).pending.filter (fun g => g.fid ≠ s.nextFid)
             , error := some m } := by
    rw [resolveErrF, hfind]
  refine ⟨?_, ?_, ?_, ?_, ?_, ?_, ?_⟩
  · simp [requestErrMsg, jsOrElse, hd]
  · simp [handleProcess, hsel]
  · rw [herr]; rfl
  · rw [herr]; rfl
  · rw [herr]; rfl
  · rw [herr]; exact startSession_job jid s
  · have hg : SessionGuard (s.session + 1) (resolveErrF s.nextFid m (startSession jid s)) := by
      rw [herr]
      refine ⟨?_, ?_⟩
      · show s.session + 1 ≤ (startSession jid s).session
        rw [startSession_session]
      · intro t ht
        simp [stop] at ht
    exact (sessionGuard_run _ evs _ hg).2

/-- Witness for C7: HTTP 429 with detail "rate limited" on submission, and a
network fault "Failed to fetch" on the first poll of a fresh session. -/
theorem transport_failure_handling_witness :
    requestErrMsg "Too Many Requests" (some (some "rate limited")) = "rate limited" ∧
      handleProcess {"d1"} (.error "rate limited")
          { jobId := none, submitting := false, submitError := none } =
        ({ jobId := none, submitting := false, submitError := some "rate limited" }, true) ∧
      ((resolveErrF 0 "Failed to fetch" (startSession "j1" pollerInitState)).error =
          some "Failed to fetch" ∧
        (resolveErrF 0 "Failed to fetch" (startSession "j1" pollerInitState)).isPolling = false ∧
        (resolveErrF 0 "Failed to fetch" (startSession "j1" pollerInitState)).intervalRef = none ∧
        (resolveErrF 0 "Failed to fetch" (startSession "j1" pollerInitState)).job = none ∧
        issuedFor 1 (runPoller [.tick]
            (resolveErrF 0 "Failed to fetch" (startSession "j1" pollerInitState))) =
          issuedFor 1 (resolveErrF 0 "Failed to fetch" (startSession "j1" pollerInitState))) :=
  transport_failure_handling "Too Many Requests" "rate limited" (by decide)
    {"d1"} (by decide) "rate limited" "Failed to fetch" "j1"
    { jobId := none, submitting := false, submitError := none }
    pollerInitState [.tick]

end Billing
